import Mathlib

/-!
Verification of `extract.py`: a shallow embedding of the text-cleaning and
chunked-parallel-processing pipeline, with theorems settling the spec's claims.

Conventions of the embedding:
* Python `dict`s preserve insertion order, so an ordered `dict` is embedded as a
  `List (String × String)` of key/value pairs iterated front to back.
* Python `str.replace(old, new)` (all non-overlapping occurrences, left to
  right) is embedded as `pyReplace` below; all patterns used by the code are
  nonempty marker strings, and `pyReplace` is only stated for those.
* A Python generator is observed through the finite sequence of items it
  yields; a raised exception is an `Except.error` for the whole sequence.
-/

/-- Exceptions the embedded fragments of `extract.py` can raise. -/
inductive PyError where
  | nameError
  | sampleError
  deriving DecidableEq, Repr

/-- One entry of `paper['body_text']`: `{section: string, text: string}`. -/
structure BodySection where
  «section» : String
  text : String
  deriving DecidableEq, Repr

/-- `paper['abstract']`, of which only the `text` field is read. -/
structure Abstract where
  text : String
  deriving DecidableEq, Repr

/-- A `RawPaper` record as read by `process_paper` / `paper_generator`. -/
structure Paper where
  paper_id : String
  discipline : String
  abstract : Abstract
  body_text : List BodySection
  ref_entries : List (String × String)
  bib_entries : List (String × String)
  deriving DecidableEq, Repr

/-- One entry of the `cleaned_body` list built by `process_paper` (lines 48-53). -/
structure CleanedSection where
  «section» : String
  text : String
  formula_lookup : List (String × String)
  citation_lookup : List (String × String)
  deriving DecidableEq, Repr

/-- The record returned by `process_paper` (lines 55-61). -/
structure CleanedPaper where
  paper_id : String
  cleaned_abstract : String
  abstract_formula_lookup : List (String × String)
  abstract_citation_lookup : List (String × String)
  cleaned_body : List CleanedSection
  deriving DecidableEq, Repr

/-- Fuelled scan for `replaceAll`: each step consumes at least one character
of the scanned list, so fuel equal to its length is always enough; the
out-of-fuel branch is unreachable under that call pattern. -/
def replaceAllGo (pat rep : List Char) : Nat → List Char → List Char
  | _, [] => []
  | 0, s => s
  | fuel + 1, c :: rest =>
    if pat ≠ [] ∧ pat.isPrefixOf (c :: rest) then
      rep ++ replaceAllGo pat rep fuel (rest.drop (pat.length - 1))
    else
      c :: replaceAllGo pat rep fuel rest

/-- Replace every occurrence of `pat`, non-overlapping, left to right,
continuing after each replacement — the semantics of Python's `str.replace`
for a nonempty `pat` (the only case the code exercises: every pattern is a
`\x7b\x7bformula:id\x7d\x7d` or `\x7b\x7bcite:id\x7d\x7d` marker). -/
def replaceAll (pat rep s : List Char) : List Char :=
  replaceAllGo pat rep s.length s

/-- Python's `text.replace(pat, rep)` on strings (nonempty `pat`). -/
def pyReplace (text pat rep : String) : String :=
  String.mk (replaceAll pat.toList rep.toList text.toList)

/-- The literal marker `\x7b\x7bformula:<id>\x7d\x7d` built at line 22. -/
def formulaMarker (id : String) : String := "\x7b\x7bformula:" ++ id ++ "\x7d\x7d"

/-- The placeholder `[FORMULA_<n>]` built at line 21. -/
def formulaPlaceholder (n : Nat) : String := "[FORMULA_" ++ toString n ++ "]"

/-- The literal marker `\x7b\x7bcite:<id>\x7d\x7d` built at line 28. -/
def citeMarker (id : String) : String := "\x7b\x7bcite:" ++ id ++ "\x7d\x7d"

/-- The placeholder `[CITATION_<n>]` built at line 27. -/
def citationPlaceholder (n : Nat) : String := "[CITATION_" ++ toString n ++ "]"

/-- One of the two substitution loops of `clean_text` (lines 20-24 and 26-30):
iterate the id→content mapping in order with a counter starting at `k`,
replace every occurrence of the marker, record the lookup entry, and
increment the counter; returns the final text and the lookup list. -/
def substLoop (marker : String → String) (ph : Nat → String)
    (k : Nat) (text : String) :
    List (String × String) → String × List (String × String)
  | [] => (text, [])
  | (id, content) :: rest =>
    let r := substLoop marker ph (k + 1) (pyReplace text (marker id) (ph k)) rest
    (r.1, (ph k, content) :: r.2)

/-- `clean_text` (lines 14-32): formula substitutions first, then citation
substitutions on the running text, both counters starting at 1. -/
def clean_text (text : String) (formula_dict citation_dict : List (String × String)) :
    String × List (String × String) × List (String × String) :=
  let f := substLoop formulaMarker formulaPlaceholder 1 text formula_dict
  let c := substLoop citeMarker citationPlaceholder 1 f.1 citation_dict
  (c.1, f.2, c.2)

/-- `process_paper` (lines 34-61): clean the abstract, then each body section
in order, against the paper's `ref_entries` and `bib_entries`. -/
def process_paper (paper : Paper) : CleanedPaper :=
  let a := clean_text paper.abstract.text paper.ref_entries paper.bib_entries
  { paper_id := paper.paper_id
    cleaned_abstract := a.1
    abstract_formula_lookup := a.2.1
    abstract_citation_lookup := a.2.2
    cleaned_body := paper.body_text.map (fun s =>
      let c := clean_text s.text paper.ref_entries paper.bib_entries
      { «section» := s.«section»
        text := c.1
        formula_lookup := c.2.1
        citation_lookup := c.2.2 }) }

/-- `process_chunk` (lines 63-64). -/
def process_chunk (papers : List Paper) : List CleanedPaper :=
  papers.map process_paper

/-- The names bound at module level in `extract.py` (lines 1-7 bind
`json`, `os`, `multiprocessing`, the four `typing` names, `partial`,
`tqdm`, `psutil`; the `def` statements bind the six functions and `main`).
`itertools` is used at line 69 but appears in no import statement. -/
def moduleGlobals : List String :=
  ["json", "os", "multiprocessing", "Dict", "List", "Tuple", "Iterator",
   "partial", "tqdm", "psutil",
   "load_jsonl", "clean_text", "process_paper", "process_chunk",
   "chunked_parallel_process", "process_year_field", "main"]

/-- Fuelled body of the dispatch loop of `chunked_parallel_process`
(lines 68-73), with the name `itertools.islice` resolved: repeatedly draw up
to `chunk_size` items, stop on an empty draw, and yield the chunk's results
in order (`pool.imap` yields results in submission order, so one drained
chunk contributes `chunk.map process_paper`). Each iteration consumes at
least one item when `chunk_size ≥ 1`, so fuel equal to the source length is
always enough; with `chunk_size = 0`, `islice` returns an empty draw and the
loop stops at once. -/
def dispatchLoopGo (chunk_size : Nat) : Nat → List Paper → List CleanedPaper
  | _, [] => []
  | 0, _ => []
  | fuel + 1, p :: rest =>
    if chunk_size = 0 then []
    else
      ((p :: rest).take chunk_size).map process_paper ++
        dispatchLoopGo chunk_size fuel ((p :: rest).drop chunk_size)

/-- The dispatch loop of `chunked_parallel_process`, assuming `islice`
resolves (the intended semantics of lines 68-73). -/
def dispatch_loop (chunk_size : Nat) (papers : List Paper) : List CleanedPaper :=
  dispatchLoopGo chunk_size papers.length papers

/-- `chunked_parallel_process` (lines 66-73) as it is written: the generator
body runs on the first draw and evaluates `itertools.islice` (line 69); the
name `itertools` is resolved against the module's global namespace, and when
it is unbound the draw raises `NameError` before anything is yielded. The
pool size `num_processes` does not affect the yielded sequence
(`pool.imap` preserves submission order). -/
def chunked_parallel_process (papers : List Paper)
    (chunk_size num_processes : Nat) : Except PyError (List CleanedPaper) :=
  if "itertools" ∈ moduleGlobals then
    Except.ok (dispatch_loop chunk_size papers)
  else
    Except.error PyError.nameError

/-- Fuelled trace of the batches the generator of lines 68-73 draws, each
paired with the `(chunk_size, num_processes)` in effect at the draw. The
generator's `chunk_size` and `num_processes` are its function parameters,
bound once at the call (line 94) and never rebound in the generator body, so
the recursion carries them unchanged: the consumer's rebinding of its own
locals (lines 103-104) has no channel into the already-created generator or
its `Pool` (created once, line 67). -/
def dispatchBatchesGo (chunk_size num_processes : Nat) :
    Nat → List Paper → List (Nat × Nat × List Paper)
  | _, [] => []
  | 0, _ => []
  | fuel + 1, p :: rest =>
    if chunk_size = 0 then []
    else
      (chunk_size, num_processes, (p :: rest).take chunk_size) ::
        dispatchBatchesGo chunk_size num_processes fuel ((p :: rest).drop chunk_size)

/-- The per-batch `(chunk_size, num_processes, batch)` trace of one run of
the dispatcher generator. -/
def dispatch_batches (chunk_size num_processes : Nat) (papers : List Paper) :
    List (Nat × Nat × List Paper) :=
  dispatchBatchesGo chunk_size num_processes papers.length papers

/-- The adjustment of lines 102-104: on a utilization sample above the
threshold, decrement the process count and halve the chunk size, each
clamped at 1; otherwise leave both unchanged. -/
def adjust (num_processes chunk_size : Nat)
    (utilization max_memory_percent : ℚ) : Nat × Nat :=
  if utilization > max_memory_percent then
    (max 1 (num_processes - 1), max 1 (chunk_size / 2))
  else
    (num_processes, chunk_size)

/-- The successive values of the consumer's `(num_processes, chunk_size)`
locals after each emitted result, one utilization sample per result
(lines 93-105). -/
def govTrace (num_processes chunk_size : Nat) (max_memory_percent : ℚ) :
    List ℚ → List (Nat × Nat)
  | [] => []
  | u :: rest =>
    let p := adjust num_processes chunk_size u max_memory_percent
    p :: govTrace p.1 p.2 max_memory_percent rest

/-- The per-result memory check (lines 101-105) with the sampling call
`psutil.virtual_memory().percent` made explicit as an `Except` input: the
source wraps it in no `try`/`except`, so a raised sampling error propagates
out of the loop unchanged, and only a successful sample reaches the
comparison and adjustment. -/
def memory_check_step (sample : Except PyError ℚ) (max_memory_percent : ℚ)
    (num_processes chunk_size : Nat) : Except PyError (Nat × Nat) :=
  match sample with
  | Except.error e => Except.error e
  | Except.ok u => Except.ok (adjust num_processes chunk_size u max_memory_percent)

/-- Python file-open modes used by the embedding (only `'w'` and `'a'`
matter here). The file's contents are abstracted as the list of
newline-terminated record lines it holds, in order. -/
inductive OpenMode where
  | w
  | a
  deriving DecidableEq, Repr

/-- Contents visible in the file right after `open(path, mode)`: mode `'w'`
truncates, mode `'a'` keeps the existing contents. -/
def pyOpen : OpenMode → List String → List String
  | OpenMode.w, _ => []
  | OpenMode.a, existing => existing

/-- The writer of `process_year_field` (lines 92-99): open the output file
with mode `'w'` (line 92), then for each processed record write it as one
`json.dump` payload followed by a newline — one line per record, in arrival
order. The sequence of write calls issued for `records`, applied to a file
that held `existing`. -/
def result_writer_run (existing : List String) (records : List String) :
    List String :=
  records.foldl (fun content record => content ++ [record]) (pyOpen OpenMode.w existing)

/-- The lookup table described by the spec's counter-assignment rule: the
`i`-th id of the mapping (counting from counter value `k`) gets placeholder
`ph (k+i)` and its content, whether or not the marker occurs in the text. -/
def specCounterLookup (ph : Nat → String) (k : Nat) :
    List (String × String) → List (String × String)
  | [] => []
  | (_, content) :: rest => (ph k, content) :: specCounterLookup ph (k + 1) rest

/-- A concrete paper used by the closed instances below. -/
def samplePaper : Paper :=
  { paper_id := "p0"
    discipline := "Computer Science"
    abstract := { text := "{{formula:f1}} intro {{cite:c1}}" }
    body_text := [{ «section» := "Intro", text := "see {{cite:c1}}" }]
    ref_entries := [("f1", "E=mc^2")]
    bib_entries := [("c1", "Smith 2020")] }

/-- Four concrete papers: two batches of two at `chunk_size = 2`. -/
def papers4 : List Paper := [samplePaper, samplePaper, samplePaper, samplePaper]

/-! ## Helper lemmas -/

/-- The lookup list built by a substitution loop is exactly the one the
counter-assignment rule describes, independent of the text. -/
theorem substLoop_lookup (marker : String → String) (ph : Nat → String) :
    ∀ (l : List (String × String)) (k : Nat) (text : String),
      (substLoop marker ph k text l).2 = specCounterLookup ph k l := by
  intro l
  induction l with
  | nil => intro k text; rfl
  | cons hd tl ih =>
    intro k text
    obtain ⟨id, content⟩ := hd
    show (ph k, content) ::
        (substLoop marker ph (k + 1) (pyReplace text (marker id) (ph k)) tl).2 =
      (ph k, content) :: specCounterLookup ph (k + 1) tl
    rw [ih]

/-- `specCounterLookup` has one entry per id of the mapping. -/
theorem specCounterLookup_length (ph : Nat → String) :
    ∀ (l : List (String × String)) (k : Nat),
      (specCounterLookup ph k l).length = l.length := by
  intro l
  induction l with
  | nil => intro k; rfl
  | cons hd tl ih =>
    intro k
    obtain ⟨id, content⟩ := hd
    show (specCounterLookup ph (k + 1) tl).length + 1 = tl.length + 1
    rw [ih]

/-- Folding the writer's per-record pushes over a list appends it. -/
theorem foldl_push (records : List String) :
    ∀ init : List String,
      records.foldl (fun content record => content ++ [record]) init =
        init ++ records := by
  induction records with
  | nil => intro init; simp
  | cons hd tl ih =>
    intro init
    rw [List.foldl_cons, ih]
    simp

/-- One governor step neither increases either component (from a positive
start) nor lets either drop below 1. -/
theorem adjust_le_of_pos (np cs : Nat) (u thr : ℚ)
    (h1 : 1 ≤ np) (h2 : 1 ≤ cs) :
    (adjust np cs u thr).1 ≤ np ∧ (adjust np cs u thr).2 ≤ cs ∧
      1 ≤ (adjust np cs u thr).1 ∧ 1 ≤ (adjust np cs u thr).2 := by
  unfold adjust
  split
  · exact ⟨Nat.max_le.mpr ⟨h1, Nat.sub_le np 1⟩,
      Nat.max_le.mpr ⟨h2, Nat.div_le_self cs 2⟩,
      Nat.le_max_left 1 _, Nat.le_max_left 1 _⟩
  · exact ⟨Nat.le_refl np, Nat.le_refl cs, h1, h2⟩

/-- Along any sample sequence the governor's `(num_processes, chunk_size)`
trace is componentwise non-increasing and stays at or above `(1, 1)`. -/
theorem govTrace_bounds (thr : ℚ) :
    ∀ (samples : List ℚ) (np cs : Nat), 1 ≤ np → 1 ≤ cs →
      List.Chain' (fun a b : Nat × Nat => b.1 ≤ a.1 ∧ b.2 ≤ a.2)
        ((np, cs) :: govTrace np cs thr samples) ∧
      ∀ x ∈ govTrace np cs thr samples, 1 ≤ x.1 ∧ 1 ≤ x.2 := by
  intro samples
  induction samples with
  | nil =>
    intro np cs h1 h2
    exact ⟨List.chain'_singleton _, by intro x hx; cases hx⟩
  | cons u rest ih =>
    intro np cs h1 h2
    obtain ⟨hle1, hle2, hpos1, hpos2⟩ := adjust_le_of_pos np cs u thr h1 h2
    obtain ⟨ihc, ihm⟩ :=
      ih (adjust np cs u thr).1 (adjust np cs u thr).2 hpos1 hpos2
    constructor
    · show List.Chain' _ ((np, cs) :: adjust np cs u thr ::
        govTrace (adjust np cs u thr).1 (adjust np cs u thr).2 thr rest)
      exact List.chain'_cons.mpr ⟨⟨hle1, hle2⟩, ihc⟩
    · intro x hx
      rcases List.mem_cons.mp hx with hx | hx
      · rw [hx]; exact ⟨hpos1, hpos2⟩
      · exact ihm x hx
/-! ## Claim theorems -/

/-- C1: in `process_year_field`, the reduced `num_processes`/`chunk_size`
the memory check computes after each emitted result are NOT used for the
next batch: the dispatcher generator draws every batch with the values
fixed at its single call site. Concretely, with four papers,
`chunk_size = 2`, `num_processes = 4`, threshold 50 and both of the first
batch's samples at 90, the governor's locals are `(2, 1)` when the second
batch is drawn, yet the second batch is drawn with `(chunk_size,
num_processes) = (2, 4)`, not the `(1, 2)` the claim requires. -/
theorem adjusted_values_not_applied :
    (dispatch_batches 2 4 papers4).map (fun b => (b.1, b.2.1)) = [(2, 4), (2, 4)] ∧
    govTrace 4 2 50 [90, 90] = [(3, 1), (2, 1)] ∧
    ((2, 4) : Nat × Nat) ≠ (1, 2) := by
  refine ⟨by decide, by decide, by decide⟩

/-- C2: the dispatcher as written never produces the elementwise
transformation of its input: already on a one-paper input with
`worker_count = batch_size = 1` the first draw raises `NameError`
(`itertools` is unbound), whereas the claim requires the output sequence
`[process_paper samplePaper]` — which is what the loop's intended
semantics (`dispatch_loop`, with `islice` resolved) would have produced. -/
theorem dispatcher_raises_nameError :
    chunked_parallel_process [samplePaper] 1 1 = Except.error PyError.nameError ∧
    (Except.error PyError.nameError : Except PyError (List CleanedPaper)) ≠
      Except.ok ([samplePaper].map process_paper) ∧
    dispatch_loop 1 [samplePaper] = [samplePaper].map process_paper := by
  refine ⟨rfl, by simp, by decide⟩

/-- C3: every id of the formula mapping consumes one counter value and gets
one lookup entry, occurrences or not — the formula lookup equals the
counter-rule table for any text and mappings — and on
`formula_map = [("f1", "E=mc^2"), ("f2", "a^2+b^2=c^2")]` with text
`"\x7b\x7bformula:f2\x7d\x7d"`, cleaning returns text `"[FORMULA_2]"` with both lookup
entries present (f1 consumed counter 1 despite zero occurrences). -/
theorem clean_text_counter_hole :
    (∀ (text : String) (formula_dict citation_dict : List (String × String)),
      (clean_text text formula_dict citation_dict).2.1 =
        specCounterLookup formulaPlaceholder 1 formula_dict) ∧
    clean_text "\x7b\x7bformula:f2\x7d\x7d" [("f1", "E=mc^2"), ("f2", "a^2+b^2=c^2")] [] =
      ("[FORMULA_2]",
       [("[FORMULA_1]", "E=mc^2"), ("[FORMULA_2]", "a^2+b^2=c^2")], []) := by
  constructor
  · intro text formula_dict citation_dict
    show (substLoop formulaMarker formulaPlaceholder 1 text formula_dict).2 = _
    exact substLoop_lookup formulaMarker formulaPlaceholder formula_dict 1 text
  · decide

/-- C4: `clean_text` is deterministic — identical inputs give identical
output triples — and each document's result is independent of the other
documents processed around it: in any chunk, the result for `p` is
`process_paper p` whatever precedes or follows it. -/
theorem clean_text_deterministic :
    (∀ (text : String) (formula_dict citation_dict : List (String × String)),
      clean_text text formula_dict citation_dict =
        clean_text text formula_dict citation_dict) ∧
    (∀ (l1 l2 : List Paper) (p : Paper),
      process_chunk (l1 ++ p :: l2) =
        process_chunk l1 ++ process_paper p :: process_chunk l2) := by
  refine ⟨fun _ _ _ => rfl, ?_⟩
  intro l1 l2 p
  simp [process_chunk]

/-- C5: one governor step yields `(max 1 (np - 1), max 1 (cs / 2))` on a
sample above the threshold and leaves the pair unchanged otherwise, and
along any sample sequence the `(num_processes, chunk_size)` trace from a
positive start is componentwise non-increasing and never drops below
`(1, 1)`. -/
theorem governor_policy_monotone (num_processes chunk_size : Nat) (thr : ℚ)
    (h1 : 1 ≤ num_processes) (h2 : 1 ≤ chunk_size) :
    (∀ u : ℚ, u > thr →
      adjust num_processes chunk_size u thr =
        (max 1 (num_processes - 1), max 1 (chunk_size / 2))) ∧
    (∀ u : ℚ, ¬ u > thr →
      adjust num_processes chunk_size u thr = (num_processes, chunk_size)) ∧
    (∀ samples : List ℚ,
      List.Chain' (fun a b : Nat × Nat => b.1 ≤ a.1 ∧ b.2 ≤ a.2)
        ((num_processes, chunk_size) ::
          govTrace num_processes chunk_size thr samples) ∧
      ∀ x ∈ govTrace num_processes chunk_size thr samples,
        1 ≤ x.1 ∧ 1 ≤ x.2) := by
  refine ⟨?_, ?_, ?_⟩
  · intro u hu
    simp only [adjust]
    rw [if_pos hu]
  · intro u hu
    simp only [adjust]
    rw [if_neg hu]
  · intro samples
    exact govTrace_bounds thr samples num_processes chunk_size h1 h2

/-- Witness for C5 at `num_processes = 3`, `chunk_size = 8`, threshold 50. -/
theorem governor_policy_monotone_witness :
    (1 ≤ 3 ∧ 1 ≤ 8) ∧
    ((∀ u : ℚ, u > 50 →
      adjust 3 8 u 50 = (max 1 (3 - 1), max 1 (8 / 2))) ∧
    (∀ u : ℚ, ¬ u > 50 → adjust 3 8 u 50 = (3, 8)) ∧
    (∀ samples : List ℚ,
      List.Chain' (fun a b : Nat × Nat => b.1 ≤ a.1 ∧ b.2 ≤ a.2)
        ((3, 8) :: govTrace 3 8 50 samples) ∧
      ∀ x ∈ govTrace 3 8 50 samples, 1 ≤ x.1 ∧ 1 ≤ x.2)) :=
  ⟨⟨by decide, by decide⟩, governor_policy_monotone 3 8 50 (by decide) (by decide)⟩

/-- C6: each citation id yields exactly one lookup entry whatever its
occurrence count — the citation lookup equals the counter-rule table for
any text and mappings — and in `"\x7b\x7bcite:c1\x7d\x7d and again \x7b\x7bcite:c1\x7d\x7d"` with
`citation_map = [("c1", "Smith 2020")]` both literal occurrences are
replaced while the lookup holds the single entry
`("[CITATION_1]", "Smith 2020")`. -/
theorem clean_text_multi_occurrence :
    (∀ (text : String) (formula_dict citation_dict : List (String × String)),
      (clean_text text formula_dict citation_dict).2.2 =
        specCounterLookup citationPlaceholder 1 citation_dict) ∧
    clean_text "\x7b\x7bcite:c1\x7d\x7d and again \x7b\x7bcite:c1\x7d\x7d" [] [("c1", "Smith 2020")] =
      ("[CITATION_1] and again [CITATION_1]", [],
       [("[CITATION_1]", "Smith 2020")]) := by
  constructor
  · intro text formula_dict citation_dict
    show (substLoop citeMarker citationPlaceholder 1 _ citation_dict).2 = _
    exact substLoop_lookup citeMarker citationPlaceholder citation_dict 1 _
  · decide

/-- C7 (counterexample): a failed utilization sample is not treated as "no
pressure": the memory-check step propagates the error instead of returning
the unchanged `(4, 100)` pair, so the pipeline aborts rather than
continuing. -/
theorem sample_failure_not_fail_open :
    memory_check_step (Except.error PyError.sampleError) 80 4 100 =
      Except.error PyError.sampleError ∧
    memory_check_step (Except.error PyError.sampleError) 80 4 100 ≠
      Except.ok (4, 100) := by
  refine ⟨rfl, by simp [memory_check_step]⟩

/-- C7 (amended): the sampling call sits in no `try`/`except`, so any
sampling failure propagates unchanged out of the per-result check — the run
aborts, and no adjustment (in either direction) takes place. -/
theorem sample_failure_propagates :
    ∀ (e : PyError) (thr : ℚ) (num_processes chunk_size : Nat),
      memory_check_step (Except.error e) thr num_processes chunk_size =
        Except.error e :=
  fun _ _ _ _ => rfl

/-- C8 (counterexample): the writer opens the output file with mode `'w'`,
not append mode: run against a file already holding the line `"prev"`, it
leaves `["rec"]`, not the `["prev", "rec"]` an append-mode open would have
preserved. -/
theorem writer_truncates_not_appends :
    result_writer_run ["prev"] ["rec"] = ["rec"] ∧
    result_writer_run ["prev"] ["rec"] ≠ pyOpen OpenMode.a ["prev"] ++ ["rec"] := by
  refine ⟨rfl, by decide⟩

/-- C8 (amended): the writer truncates whatever the file held and then
writes exactly one line per record, in arrival order; after the first `k`
records the write calls issued are exactly those `k` records, so a run cut
short after `k` records has issued writes for precisely the records
processed so far. -/
theorem writer_lines_are_records :
    ∀ (existing records : List String),
      result_writer_run existing records = records ∧
      (result_writer_run existing records).length = records.length ∧
      ∀ k : Nat,
        result_writer_run existing (records.take k) = records.take k := by
  intro existing records
  have h : ∀ rs : List String, result_writer_run existing rs = rs := by
    intro rs
    show rs.foldl (fun content record => content ++ [record]) (pyOpen OpenMode.w existing) = rs
    rw [foldl_push]
    rfl
  exact ⟨h records, by rw [h records], fun k => h (records.take k)⟩

/-- C9: `itertools` is bound by no import of the module, so the first draw
from `chunked_parallel_process` raises `NameError` for every input list —
the empty one included — and for all `chunk_size` and `num_processes`; the
dispatcher never yields a result. -/
theorem chunked_parallel_process_always_nameError :
    ("itertools" ∉ moduleGlobals) ∧
    ∀ (papers : List Paper) (chunk_size num_processes : Nat),
      chunked_parallel_process papers chunk_size num_processes =
        Except.error PyError.nameError :=
  ⟨by decide, fun _ _ _ => rfl⟩

/-- C10: `process_paper` preserves the paper id, produces one cleaned
section per input body section, and carries each section's `section` field
through unchanged, in input order. -/
theorem process_paper_frame :
    ∀ p : Paper,
      (process_paper p).paper_id = p.paper_id ∧
      (process_paper p).cleaned_body.length = p.body_text.length ∧
      (process_paper p).cleaned_body.map (fun c => c.«section») =
        p.body_text.map (fun s => s.«section») := by
  intro p
  refine ⟨rfl, ?_, ?_⟩
  · simp [process_paper]
  · simp [process_paper, List.map_map]
